import Mathlib

/-!
Verification of the authentication surface of the mes_depenses repository:
registration, login and logout handlers (app/controllers/auth_controller.ts),
the compiled input validators (app/validators/auth.ts) and the users-table
schema defaults (the migration file).  The handlers are embedded as pure
functions over an explicit store of user rows and access tokens; framework
collaborators that are not part of the repository (credential verification,
password hashing, model serialization, the email syntax rule) are modelled
from the specification, each marked as such in its doc comment.
-/

namespace MesDepenses

/-- A row of the `users` table, per the migration: auto-increment id, nullable
name, unique email, password (stored as a hash), status defaulting to
"active", isAdmin defaulting to false, nullable soft-delete timestamp. -/
structure User where
  id : Nat
  name : Option String
  email : String
  passwordHash : String
  status : String
  isAdmin : Bool
  deletedAt : Option Nat
deriving DecidableEq, Repr

/-- An access token: an identifier, the owning user's id, and an opaque
secret value, as issued by the framework token provider. -/
structure AccessToken where
  identifier : Nat
  userId : Nat
  value : String
deriving DecidableEq, Repr

/-- The persistent state the handlers touch: the users table, the
access-token store, and the auto-increment counters. -/
structure Store where
  users : List User
  tokens : List AccessToken
  nextUserId : Nat
  nextTokenId : Nat
deriving DecidableEq, Repr

/-- Modelled from the spec: the password hashing hook lives on the User model,
which is not among the repository files; the spec says the stored value is
"never the plaintext password; produced by a one-way hashing function at
creation time".  Modelled as an injective tagging function that never returns
its argument. -/
def hashPwd (p : String) : String := "$hash$" ++ p

/-- Modelled from the spec: the User model's serialization configuration is
not among the repository files; the spec says the password hash is never
included in serialized output.  The serialized shape therefore has no
password field at all. -/
structure SerializedUser where
  id : Nat
  name : Option String
  email : String
  status : String
  isAdmin : Bool
  deletedAt : Option Nat
deriving DecidableEq, Repr

/-- Serialization of a user row: every column except the password hash. -/
def User.serialize (u : User) : SerializedUser :=
  { id := u.id, name := u.name, email := u.email, status := u.status,
    isAdmin := u.isAdmin, deletedAt := u.deletedAt }

/-- First user row whose email matches, as produced by
`User.query().where('email', '=', e).first()`. -/
def findByEmail (users : List User) (e : String) : Option User :=
  users.find? (fun u => u.email == e)

/-- Modelled from the spec: `User.verifyCredentials` is framework code, not a
repository file; per the spec it looks the User up by email and fails with
InvalidCredentials when there is no match or the password hash does not
match.  `none` is the InvalidCredentials outcome. -/
def verifyCredentials (users : List User) (e p : String) : Option User :=
  match findByEmail users e with
  | none => none
  | some u => if u.passwordHash == hashPwd p then some u else none

/-- Modelled from the spec: the VineJS email() rule is library code; it
accepts only syntactically valid emails and, with its default options, caps
the total length at 254 characters (the bound the spec states for
User.email).  The syntax side is abstracted to the presence of the
structural characters. -/
def isEmailModel (s : String) : Bool :=
  s.data.contains '@' && s.data.contains '.' &&
    1 ≤ s.length && s.length ≤ 254

/-- The optional-name rule of registerValidator:
vine.string().minLength(3).maxLength(64).optional(). -/
def nameOk (n : Option String) : Bool :=
  match n with
  | none => true
  | some s => 3 ≤ s.length && s.length ≤ 64

/-- Body of a registration request. -/
structure RegisterInput where
  name : Option String
  email : String
  password : String
deriving DecidableEq, Repr

/-- The field-shape part of registerValidator: optional name 3..64, email
syntax, password minLength(8).maxLength(512). -/
def registerShapeOk (i : RegisterInput) : Bool :=
  nameOk i.name && isEmailModel i.email &&
    (8 ≤ i.password.length && i.password.length ≤ 512)

/-- loginValidator: email syntax, password minLength(8).maxLength(32). -/
def loginValidatorOk (e p : String) : Bool :=
  isEmailModel e && (8 ≤ p.length && p.length ≤ 32)

/-- Outcome of running the compiled registerValidator, which checks field
shapes and then the email unique() rule (a query against the users table). -/
inductive RegisterVal where
  | fieldError
  | uniqueError
  | okPayload
deriving DecidableEq, Repr

/-- registerValidator as compiled: shape rules, then the unique() rule that
queries the users table for the submitted email. -/
def registerValidate (users : List User) (i : RegisterInput) : RegisterVal :=
  if registerShapeOk i then
    if (findByEmail users i.email).isSome then RegisterVal.uniqueError
    else RegisterVal.okPayload
  else RegisterVal.fieldError

/-- Result of the register handler.  `validationError` carries the failed
rule tag as it appears in the 422 error body. -/
inductive RegisterResult where
  | validationError (rule : String)
  | duplicateEmail
  | createdUser (user : SerializedUser)
deriving DecidableEq, Repr

/-- HTTP status the register handler maps each outcome to. -/
def RegisterResult.statusCode : RegisterResult → Nat
  | RegisterResult.validationError _ => 422
  | RegisterResult.duplicateEmail => 409
  | RegisterResult.createdUser _ => 201

/-- The fresh user row persisted by `User.create(payload)`: status and
isAdmin take the table defaults declared in the migration
(defaultTo('active'), defaultTo(false)); the password is stored hashed
(model hook, modelled from the spec); deletedAt defaults to null. -/
def newUser (st : Store) (i : RegisterInput) : User :=
  { id := st.nextUserId, name := i.name, email := i.email,
    passwordHash := hashPwd i.password, status := "active",
    isAdmin := false, deletedAt := none }

/-- AuthController.register: validate (shape rules plus the unique() email
rule), then the controller's own duplicate-email query returning 409
conflict, then persist and return the created user with status 201. -/
def register (st : Store) (i : RegisterInput) : RegisterResult × Store :=
  match registerValidate st.users i with
  | RegisterVal.fieldError => (RegisterResult.validationError "field", st)
  | RegisterVal.uniqueError =>
      (RegisterResult.validationError "database.unique", st)
  | RegisterVal.okPayload =>
      match findByEmail st.users i.email with
      | some _ => (RegisterResult.duplicateEmail, st)
      | none =>
          (RegisterResult.createdUser (newUser st i).serialize,
           { st with users := st.users ++ [newUser st i],
                     nextUserId := st.nextUserId + 1 })

/-- Result of the login handler. -/
inductive LoginResult where
  | validationFailed
  | invalidCredentials
  | accountDisabled
  | accountNotFound
  | success (token : AccessToken) (user : SerializedUser)
deriving DecidableEq, Repr

/-- HTTP status the login path maps each outcome to: 422 validation, 400
invalid credentials, 403 for both account-state failures, 200 success. -/
def LoginResult.statusCode : LoginResult → Nat
  | LoginResult.validationFailed => 422
  | LoginResult.invalidCredentials => 400
  | LoginResult.accountDisabled => 403
  | LoginResult.accountNotFound => 403
  | LoginResult.success _ _ => 200

/-- The access token minted by `User.accessTokens.create(user)`: fresh
identifier from the counter, bound to the user, with a non-empty opaque
value. -/
def mkToken (ident uid : Nat) : AccessToken :=
  { identifier := ident, userId := uid, value := "oat_" ++ Nat.repr ident }

/-- AuthController.login: validate the body, verify credentials (framework
helper, modelled above), then gate on status == 'disable', then on a
non-null deletedAt, and finally mint a token and return it with the
serialized user. -/
def login (st : Store) (e p : String) : LoginResult × Store :=
  if loginValidatorOk e p then
    match verifyCredentials st.users e p with
    | none => (LoginResult.invalidCredentials, st)
    | some u =>
        if u.status == "disable" then (LoginResult.accountDisabled, st)
        else if u.deletedAt.isSome then (LoginResult.accountNotFound, st)
        else
          (LoginResult.success (mkToken st.nextTokenId u.id) u.serialize,
           { st with tokens := st.tokens ++ [mkToken st.nextTokenId u.id],
                     nextTokenId := st.nextTokenId + 1 })
  else (LoginResult.validationFailed, st)

/-- The authenticated request context the logout handler reads:
auth.getUserOrFail() and the optional identifier of the current access
token. -/
structure AuthCtx where
  user : User
  currentTokenId : Option Nat
deriving DecidableEq, Repr

/-- Result of the logout handler. -/
inductive LogoutResult where
  | tokenMissing
  | loggedOut
deriving DecidableEq, Repr

/-- HTTP status of each logout outcome: 401 when the token identifier is
missing, 200 otherwise. -/
def LogoutResult.statusCode : LogoutResult → Nat
  | LogoutResult.tokenMissing => 401
  | LogoutResult.loggedOut => 200

/-- AuthController.logout: 401 when no token identifier is resolvable from
the context, otherwise delete the token with that identifier for the
authenticated user (framework delete: by identifier and owner; deleting a
token that is already gone still answers 200). -/
def deleteToken (toks : List AccessToken) (uid tid : Nat) : List AccessToken :=
  toks.filter (fun t => !(t.identifier == tid && t.userId == uid))

/-- The logout handler itself, over the store and the request context. -/
def logout (st : Store) (a : AuthCtx) : LogoutResult × Store :=
  match a.currentTokenId with
  | none => (LogoutResult.tokenMissing, st)
  | some tid =>
      (LogoutResult.loggedOut,
       { st with tokens := deleteToken st.tokens a.user.id tid })

end MesDepenses

namespace MesDepenses

/-! Helper lemmas shared by the claim theorems. -/

theorem hashPwd_ne_plain (p : String) : hashPwd p ≠ p := by
  intro h
  have h2 := congrArg (fun s => s.data.length) h
  simp only [hashPwd] at h2
  have h3 : ("$hash$" ++ p).data = "$hash$".data ++ p.data := rfl
  rw [h3] at h2
  simp at h2
  omega

theorem mkToken_value_nonempty (n uid : Nat) : (mkToken n uid).value ≠ "" := by
  intro h
  have h4 : (mkToken n uid).value.data
      = 'o' :: 'a' :: 't' :: '_' :: (Nat.repr n).data := rfl
  rw [h] at h4
  exact List.cons_ne_nil _ _ h4.symm

theorem serialize_ignores_hash (u : User) (pw : String) :
    User.serialize { u with passwordHash := pw } = u.serialize := rfl

/-! Concrete fixtures used by witnesses and counterexamples. -/

/-- An ordinary active user row. -/
def uActive : User :=
  { id := 1, name := none, email := "a@x.com",
    passwordHash := hashPwd "correctpass1", status := "active",
    isAdmin := false, deletedAt := none }

/-- A disabled user row. -/
def uDisabled : User :=
  { id := 1, name := none, email := "a@x.com",
    passwordHash := hashPwd "correctpass1", status := "disable",
    isAdmin := false, deletedAt := none }

/-- A soft-deleted but otherwise active user row. -/
def uDeleted : User :=
  { id := 1, name := none, email := "a@x.com",
    passwordHash := hashPwd "correctpass1", status := "active",
    isAdmin := false, deletedAt := some 5 }

/-- A user row that is both disabled and soft-deleted. -/
def uBoth : User :=
  { id := 1, name := none, email := "a@x.com",
    passwordHash := hashPwd "correctpass1", status := "disable",
    isAdmin := false, deletedAt := some 5 }

/-- A store holding exactly one given user and no tokens. -/
def storeWith (u : User) : Store :=
  { users := [u], tokens := [], nextUserId := 2, nextTokenId := 1 }

/-- A 33-character password: accepted at registration, rejected at login. -/
def pwd33 : String := String.mk (List.replicate 33 'a')

/-- C1: for every login request that passes the login validator, carries an
email with a matching user row, and a password whose hash does not match the
stored hash, the handler answers InvalidCredentials — whatever the row's
status and deletedAt hold, since the credential check runs before both
gates — and the store is unchanged. -/
theorem login_wrong_password_invalid_credentials
    (st : Store) (e p : String) (u : User)
    (hval : loginValidatorOk e p = true)
    (hfind : findByEmail st.users e = some u)
    (hpw : u.passwordHash ≠ hashPwd p) :
    login st e p = (LoginResult.invalidCredentials, st) := by
  have hbeq : (u.passwordHash == hashPwd p) = false := beq_eq_false_iff_ne.mpr hpw
  have hver : verifyCredentials st.users e p = none := by
    simp [verifyCredentials, hfind, hbeq]
  simp [login, hval, hver]

/-- C1 witness: a disabled and soft-deleted account with a wrong password
still gets InvalidCredentials. -/
theorem login_wrong_password_invalid_credentials_witness :
    loginValidatorOk "a@x.com" "wrongpass123" = true ∧
    login (storeWith uBoth) "a@x.com" "wrongpass123" =
      (LoginResult.invalidCredentials, storeWith uBoth) :=
  ⟨by decide,
   login_wrong_password_invalid_credentials (storeWith uBoth) "a@x.com"
     "wrongpass123" uBoth (by decide) (by decide) (by decide)⟩

end MesDepenses

namespace MesDepenses

/-- C2: for every login request that passes the validator and whose
credentials match a user row with status "disable", the handler answers
AccountDisabled with HTTP 403 — not InvalidCredentials — and no token is
issued. -/
theorem login_disabled_account_gets_account_disabled
    (st : Store) (e p : String) (u : User)
    (hval : loginValidatorOk e p = true)
    (hver : verifyCredentials st.users e p = some u)
    (hst : u.status = "disable") :
    login st e p = (LoginResult.accountDisabled, st) ∧
    (login st e p).1 ≠ LoginResult.invalidCredentials ∧
    (login st e p).1.statusCode = 403 ∧
    (login st e p).2.tokens = st.tokens := by
  have h1 : login st e p = (LoginResult.accountDisabled, st) := by
    simp [login, hval, hver, hst]
  refine ⟨h1, ?_, ?_, ?_⟩ <;> simp [h1, LoginResult.statusCode]

/-- C2 witness: the disabled fixture with its correct password. -/
theorem login_disabled_account_gets_account_disabled_witness :
    verifyCredentials (storeWith uDisabled).users "a@x.com" "correctpass1"
      = some uDisabled ∧
    login (storeWith uDisabled) "a@x.com" "correctpass1"
      = (LoginResult.accountDisabled, storeWith uDisabled) :=
  ⟨by decide,
   (login_disabled_account_gets_account_disabled (storeWith uDisabled)
     "a@x.com" "correctpass1" uDisabled (by decide) (by decide) (by decide)).1⟩

/-- C3 counterexample: a user row that is soft-deleted AND disabled, with
correct credentials, gets AccountDisabled — not AccountNotFound as the
claim's universal statement requires — because the status gate is evaluated
before the deletedAt gate. -/
theorem login_soft_deleted_counterexample :
    uBoth.deletedAt = some 5 ∧
    verifyCredentials (storeWith uBoth).users "a@x.com" "correctpass1"
      = some uBoth ∧
    login (storeWith uBoth) "a@x.com" "correctpass1"
      = (LoginResult.accountDisabled, storeWith uBoth) ∧
    (login (storeWith uBoth) "a@x.com" "correctpass1").1
      ≠ LoginResult.accountNotFound := by decide

/-- C3 amended: for every login request that passes the validator, whose
credentials match a user row with a non-null deletedAt, and whose status is
not "disable" (in particular status "active"), the handler answers
AccountNotFound with HTTP 403 and no token is issued. -/
theorem login_soft_deleted_account_not_found
    (st : Store) (e p : String) (u : User)
    (hval : loginValidatorOk e p = true)
    (hver : verifyCredentials st.users e p = some u)
    (hstatus : u.status ≠ "disable")
    (hdel : u.deletedAt.isSome = true) :
    login st e p = (LoginResult.accountNotFound, st) ∧
    (login st e p).1.statusCode = 403 ∧
    (login st e p).2.tokens = st.tokens := by
  have h1 : login st e p = (LoginResult.accountNotFound, st) := by
    simp [login, hval, hver, hstatus, hdel]
  refine ⟨h1, ?_, ?_⟩ <;> simp [h1, LoginResult.statusCode]

/-- C3 witness: the soft-deleted, status-"active" fixture with its correct
password. -/
theorem login_soft_deleted_account_not_found_witness :
    uDeleted.status = "active" ∧ uDeleted.deletedAt = some 5 ∧
    login (storeWith uDeleted) "a@x.com" "correctpass1"
      = (LoginResult.accountNotFound, storeWith uDeleted) :=
  ⟨by decide, by decide,
   (login_soft_deleted_account_not_found (storeWith uDeleted) "a@x.com"
     "correctpass1" uDeleted (by decide) (by decide) (by decide)
     (by decide)).1⟩

/-- C4: for every login request that passes the validator, whose credentials
match a user row that is neither disabled nor soft-deleted, the handler
answers HTTP 200 with a freshly minted token bound to that user, a non-empty
token value, and the serialized user; serialization does not depend on the
password hash, so the hash is never part of the response body. -/
theorem login_success_mints_token
    (st : Store) (e p : String) (u : User)
    (hval : loginValidatorOk e p = true)
    (hver : verifyCredentials st.users e p = some u)
    (hstatus : u.status ≠ "disable")
    (hdel : u.deletedAt = none) :
    login st e p =
      (LoginResult.success (mkToken st.nextTokenId u.id) u.serialize,
       { st with tokens := st.tokens ++ [mkToken st.nextTokenId u.id],
                 nextTokenId := st.nextTokenId + 1 }) ∧
    (mkToken st.nextTokenId u.id).userId = u.id ∧
    (mkToken st.nextTokenId u.id).value ≠ "" ∧
    (login st e p).1.statusCode = 200 ∧
    (∀ pw : String,
      User.serialize { u with passwordHash := pw } = u.serialize) := by
  have h1 : login st e p =
      (LoginResult.success (mkToken st.nextTokenId u.id) u.serialize,
       { st with tokens := st.tokens ++ [mkToken st.nextTokenId u.id],
                 nextTokenId := st.nextTokenId + 1 }) := by
    simp [login, hval, hver, hstatus, hdel]
  refine ⟨h1, rfl, mkToken_value_nonempty _ _, ?_, fun pw => rfl⟩
  rw [h1]
  rfl

/-- C4 witness: the active fixture logs in and receives token 1. -/
theorem login_success_mints_token_witness :
    login (storeWith uActive) "a@x.com" "correctpass1" =
      (LoginResult.success (mkToken 1 1) uActive.serialize,
       { storeWith uActive with tokens := [mkToken 1 1], nextTokenId := 2 }) :=
  by
  have h := (login_success_mints_token (storeWith uActive) "a@x.com"
    "correctpass1" uActive (by decide) (by decide) (by decide) (by decide)).1
  simpa [storeWith] using h

end MesDepenses

namespace MesDepenses

/-- The duplicate registration attempt used in the C5 counterexample: same
email as the already-stored active fixture, otherwise valid fields. -/
def regDupInput : RegisterInput :=
  { name := none, email := "a@x.com", password := "password123" }

/-- C5 counterexample: registering an email that already belongs to a stored
user, with otherwise valid fields, fails at the validator's unique() rule
with HTTP 422 (rule "database.unique"); the controller's DuplicateEmail
branch with HTTP 409 is never reached, refuting the claimed status. -/
theorem register_duplicate_email_counterexample :
    findByEmail (storeWith uActive).users regDupInput.email = some uActive ∧
    registerShapeOk regDupInput = true ∧
    register (storeWith uActive) regDupInput
      = (RegisterResult.validationError "database.unique",
         storeWith uActive) ∧
    (register (storeWith uActive) regDupInput).1
      ≠ RegisterResult.duplicateEmail ∧
    (register (storeWith uActive) regDupInput).1.statusCode ≠ 409 ∧
    (register (storeWith uActive) regDupInput).1.statusCode = 422 := by
  decide

/-- C5 amended: for every registration request with valid field shapes whose
email already belongs to a stored user, the operation fails with the
duplicate-email validation error (HTTP 422, rule "database.unique") raised
by the validator's unique() rule — not with the controller's 409
DuplicateEmail response, whose branch is unreachable — and the store is
completely unchanged: the pre-existing User is untouched and no new User is
created. -/
theorem register_duplicate_email_rejected
    (st : Store) (i : RegisterInput) (u : User)
    (hshape : registerShapeOk i = true)
    (hfind : findByEmail st.users i.email = some u) :
    register st i
      = (RegisterResult.validationError "database.unique", st) ∧
    (register st i).1.statusCode = 422 ∧
    (register st i).2 = st := by
  have h1 : register st i
      = (RegisterResult.validationError "database.unique", st) := by
    simp [register, registerValidate, hshape, hfind]
  exact ⟨h1, by rw [h1]; rfl, by rw [h1]⟩

/-- C5 witness: the concrete duplicate attempt, through the amended
theorem. -/
theorem register_duplicate_email_rejected_witness :
    registerShapeOk regDupInput = true ∧
    register (storeWith uActive) regDupInput
      = (RegisterResult.validationError "database.unique",
         storeWith uActive) :=
  ⟨by decide,
   (register_duplicate_email_rejected (storeWith uActive) regDupInput uActive
     (by decide) (by decide)).1⟩

/-- C6: for every registration request with valid field shapes and a fresh
email, the handler persists exactly one new User carrying status "active",
isAdmin false and the hashed password — which differs from the plaintext —
answers HTTP 201, and returns the created user serialized, a shape that does
not depend on the password hash. -/
theorem register_fresh_email_creates_user
    (st : Store) (i : RegisterInput)
    (hshape : registerShapeOk i = true)
    (hfresh : findByEmail st.users i.email = none) :
    register st i =
      (RegisterResult.createdUser (newUser st i).serialize,
       { st with users := st.users ++ [newUser st i],
                 nextUserId := st.nextUserId + 1 }) ∧
    (newUser st i).status = "active" ∧
    (newUser st i).isAdmin = false ∧
    (newUser st i).passwordHash = hashPwd i.password ∧
    hashPwd i.password ≠ i.password ∧
    (register st i).1.statusCode = 201 ∧
    (∀ pw : String,
      User.serialize { newUser st i with passwordHash := pw }
        = (newUser st i).serialize) := by
  have h1 : register st i =
      (RegisterResult.createdUser (newUser st i).serialize,
       { st with users := st.users ++ [newUser st i],
                 nextUserId := st.nextUserId + 1 }) := by
    simp [register, registerValidate, hshape, hfresh]
  refine ⟨h1, rfl, rfl, rfl, hashPwd_ne_plain _, ?_, fun pw => rfl⟩
  rw [h1]
  rfl

/-- C6 witness: a fresh registration into the empty store. -/
theorem register_fresh_email_creates_user_witness :
    findByEmail ([] : List User) "a@x.com" = none ∧
    register { users := [], tokens := [], nextUserId := 1, nextTokenId := 1 }
        regDupInput =
      (RegisterResult.createdUser
        (newUser { users := [], tokens := [], nextUserId := 1,
                   nextTokenId := 1 } regDupInput).serialize,
       { users := [newUser { users := [], tokens := [], nextUserId := 1,
                             nextTokenId := 1 } regDupInput],
         tokens := [], nextUserId := 2, nextTokenId := 1 }) := by
  refine ⟨by decide, ?_⟩
  have h := (register_fresh_email_creates_user
    { users := [], tokens := [], nextUserId := 1, nextTokenId := 1 }
    regDupInput (by decide) (by decide)).1
  simpa using h

end MesDepenses

namespace MesDepenses

/-- C7: the logout handler answers TokenMissing with HTTP 401 exactly when no
token identifier is resolvable from the request context; with a resolvable
identifier it answers HTTP 200 and removes from the token store exactly the
tokens carrying that identifier for the authenticated user — a second logout
with the same, already-revoked identifier still answers 200, so revocation
is idempotent from the caller's perspective. -/
theorem logout_token_contract (st : Store) (u : User) (tid : Nat) :
    logout st { user := u, currentTokenId := none }
      = (LogoutResult.tokenMissing, st) ∧
    LogoutResult.tokenMissing.statusCode = 401 ∧
    (logout st { user := u, currentTokenId := some tid }).1
      = LogoutResult.loggedOut ∧
    LogoutResult.loggedOut.statusCode = 200 ∧
    (logout st { user := u, currentTokenId := some tid }).2.tokens
      = deleteToken st.tokens u.id tid ∧
    (∀ t : AccessToken,
      t ∈ (logout st { user := u, currentTokenId := some tid }).2.tokens ↔
        t ∈ st.tokens ∧ ¬(t.identifier = tid ∧ t.userId = u.id)) ∧
    (logout (logout st { user := u, currentTokenId := some tid }).2
        { user := u, currentTokenId := some tid }).1
      = LogoutResult.loggedOut := by
  refine ⟨rfl, rfl, rfl, rfl, rfl, ?_, rfl⟩
  intro t
  simp [logout, deleteToken, List.mem_filter]
  tauto

/-- C8: the password length bounds at the public interface differ between
the two validators — registration accepts exactly 8..512 characters, login
exactly 8..32 — so any 33..512-character password passes registration yet is
rejected by the login validator. -/
theorem password_bounds_mismatch :
    (∀ (n : Option String) (e p : String),
      isEmailModel e = true → nameOk n = true →
      (registerShapeOk { name := n, email := e, password := p } = true ↔
        8 ≤ p.length ∧ p.length ≤ 512)) ∧
    (∀ e p : String, isEmailModel e = true →
      (loginValidatorOk e p = true ↔
        8 ≤ p.length ∧ p.length ≤ 32)) ∧
    (∀ (n : Option String) (e p : String),
      isEmailModel e = true → nameOk n = true →
      33 ≤ p.length → p.length ≤ 512 →
      registerShapeOk { name := n, email := e, password := p } = true ∧
      loginValidatorOk e p = false) := by
  refine ⟨?_, ?_, ?_⟩
  · intro n e p he hn
    simp [registerShapeOk, hn, he]
  · intro e p he
    simp [loginValidatorOk, he]
  · intro n e p he hn h33 h512
    constructor
    · simp [registerShapeOk, hn, he]
      omega
    · simp [loginValidatorOk, he]
      omega

/-- C8 witness: the 33-character password passes the registration shape
rules and fails the login validator. -/
theorem password_bounds_mismatch_witness :
    isEmailModel "a@x.com" = true ∧ nameOk none = true ∧
    33 ≤ pwd33.length ∧ pwd33.length ≤ 512 ∧
    registerShapeOk
      { name := none, email := "a@x.com", password := pwd33 } = true ∧
    loginValidatorOk "a@x.com" pwd33 = false :=
  ⟨by decide, by decide, by decide, by decide,
   (password_bounds_mismatch.2.2 none "a@x.com" pwd33 (by decide) (by decide)
     (by decide) (by decide)).1,
   (password_bounds_mismatch.2.2 none "a@x.com" pwd33 (by decide) (by decide)
     (by decide) (by decide)).2⟩

/-- C9: every email the registration validation accepts is at most 254
characters long, so the bound on the users.email column is already enforced
before any User row is persisted. -/
theorem validated_email_length_bounded
    (users : List User) (i : RegisterInput)
    (hok : registerValidate users i = RegisterVal.okPayload) :
    i.email.length ≤ 254 := by
  have hshape : registerShapeOk i = true := by
    by_contra h
    simp [registerValidate, h] at hok
  have he : isEmailModel i.email = true := by
    simp only [registerShapeOk, Bool.and_eq_true] at hshape
    exact hshape.1.2
  simp only [isEmailModel, Bool.and_eq_true, decide_eq_true_eq] at he
  exact he.2

/-- C9 witness: a concrete accepted registration input, whose email is
within the bound. -/
theorem validated_email_length_bounded_witness :
    registerValidate [] regDupInput = RegisterVal.okPayload ∧
    regDupInput.email.length ≤ 254 :=
  ⟨by decide, validated_email_length_bounded [] regDupInput (by decide)⟩

/-- C10: neither login nor logout ever changes the users table — on every
path, success or failure, the list of user rows of the resulting store is
exactly the input one; only the token store and its counter may change. -/
theorem handlers_preserve_users_table
    (st : Store) (e p : String) (a : AuthCtx) :
    (login st e p).2.users = st.users ∧ (logout st a).2.users = st.users := by
  constructor
  · unfold login
    split
    · rcases hver : verifyCredentials st.users e p with _ | u
      · simp [hver]
      · simp only [hver]
        split
        · rfl
        · split
          · rfl
          · rfl
    · rfl
  · unfold logout
    rcases a with ⟨u, _ | tid⟩
    · rfl
    · rfl

end MesDepenses
